import Mathlib

/-!
Verification development for the pr-agent MCP server (`server.py`).

The server exposes three tools: `analyze_file_changes` (runs git subprocesses
and assembles a JSON report with a diff-truncation policy), `get_pr_templates`
(reads a fixed catalog of PR template files) and `suggest_template` (maps a
free-text change type onto one catalog entry).

The embedding models Python strings as Lean `String`, Python ints as `Int`
(`len` counts as `Nat`, coerced where compared), the JSON dictionaries built by
the tools as an explicit `JsonVal` tree, subprocess invocations as records of
exit code / stdout / stderr supplied by an environment, filesystem reads as a
function into `Except` (an `error` models a raised exception), and Python's
`str.split`, `str.join` and list slicing by executable functions with the same
semantics, including slicing with a negative bound.
-/

/-- Result of one `subprocess.run` invocation: exit code, captured stdout and
captured stderr (`capture_output=True, text=True`). -/
structure RunResult where
  exitCode : Int
  stdout : String
  stderr : String

/-- A JSON value, as assembled by the tools before `json.dumps`. Object fields
are an ordered association list, as in a Python dict. -/
inductive JsonVal where
  | str (s : String)
  | bool (b : Bool)
  | int (n : Int)
  | obj (fields : List (String × JsonVal))
  | null

/-- Look up a field of a JSON object (first binding wins, as in a dict). -/
def JsonVal.getField (v : JsonVal) (k : String) : Option JsonVal :=
  match v with
  | .obj fields => (fields.find? (fun p => p.1 == k)).map Prod.snd
  | _ => none

/-- The ordered list of keys of a JSON object. -/
def JsonVal.keys (v : JsonVal) : Option (List String) :=
  match v with
  | .obj fields => some (fields.map Prod.fst)
  | _ => none

/-- Splitting a character list at every newline, the semantics of Python's
`s.split("\n")`: the result always has one more part than there are newline
characters, so it is never empty and the empty string yields one empty part. -/
def splitNl : List Char → List (List Char)
  | [] => [[]]
  | c :: cs =>
    if c = '\n' then [] :: splitNl cs
    else
      match splitNl cs with
      | [] => [[c]]
      | l :: ls => (c :: l) :: ls

/-- Python's `s.split("\n")` on a string. -/
def pySplit (s : String) : List String :=
  (splitNl s.data).map (fun l => String.mk l)

/-- Python's `"\n".join(xs)`. -/
def pyJoinNl : List String → String
  | [] => ""
  | [s] => s
  | s :: rest => s ++ "\n" ++ pyJoinNl rest

/-- Python's slice `xs[:k]` for an arbitrary (possibly negative) integer `k`:
a negative bound counts from the end, clamped at the start. -/
def pySliceTo (xs : List α) (k : Int) : List α :=
  if 0 ≤ k then xs.take k.toNat
  else xs.take (xs.length - (-k).toNat)

/-- The environment a call to `analyze_file_changes` runs against: the four
git subprocess results (`git diff --name-status`, `git diff --stat`,
`git diff`, `git log --online`) and the `_debug` payload the function gathers
from working-directory resolution and the roots check. -/
structure GitEnv where
  filesRun : RunResult
  statRun : RunResult
  diffRun : RunResult
  commitRun : RunResult
  debugInfo : List (String × JsonVal)

/-- Embedding of `analyze_file_changes` (server.py lines 48-154). The primary
`git diff --name-status` call uses `check=True`: a non-zero exit raises
`CalledProcessError`, caught and returned as a one-field error object. The
other three invocations do not check the exit code and their stdout is used
as-is. The JSON keys are exactly the ones the source writes, including the
misspelled `files_cahnged` and `total_diff_lens`. -/
def analyze_file_changes (base_branch : String) (include_diff : Bool)
    (max_diff_lines : Int) (env : GitEnv) : JsonVal :=
  if env.filesRun.exitCode ≠ 0 then
    JsonVal.obj [("error", JsonVal.str ("Git error: " ++ env.filesRun.stderr))]
  else
    let diff_lines : List String := pySplit env.diffRun.stdout
    let diff_content : String :=
      if include_diff then
        if (diff_lines.length : Int) > max_diff_lines then
          pyJoinNl (pySliceTo diff_lines max_diff_lines)
            ++ ("\n\n... Output truncated. Showing " ++ toString max_diff_lines
                ++ " of " ++ toString diff_lines.length ++ " lines ...")
            ++ "\n... Use max_diff_lines parameter to see more ..."
        else env.diffRun.stdout
      else ""
    let truncated : Bool :=
      if include_diff then decide ((diff_lines.length : Int) > max_diff_lines)
      else false
    JsonVal.obj
      [ ("base_branch", JsonVal.str base_branch),
        ("files_cahnged", JsonVal.str env.filesRun.stdout),
        ("statistics", JsonVal.str env.statRun.stdout),
        ("commits", JsonVal.str env.commitRun.stdout),
        ("diff", JsonVal.str
          (if include_diff then diff_content
           else "Diff not included (set include_diff=true to see full diff)")),
        ("truncated", JsonVal.bool truncated),
        ("total_diff_lens", JsonVal.int
          (if include_diff then (diff_lines.length : Int) else 0)),
        ("_debug", JsonVal.obj env.debugInfo) ]

/-- The template catalog declaration (server.py lines 20-28), in order. -/
def DEFAULT_TEMPLATES : List (String × String) :=
  [ ("bug.md", "Bug Fix"),
    ("feature.md", "Feature"),
    ("docs.md", "Documentation"),
    ("refactor.md", "Refactor"),
    ("test.md", "Test"),
    ("performance.md", "Performance"),
    ("security.md", "Security") ]

/-- The synonym table (server.py lines 30-44), in order. -/
def TYPE_MAPPING : List (String × String) :=
  [ ("bug", "bug.md"),
    ("fix", "bug.md"),
    ("feature", "feature.md"),
    ("enhancement", "feature.md"),
    ("docs", "docs.md"),
    ("documentation", "docs.md"),
    ("refactor", "refactor.md"),
    ("cleanup", "refactor.md"),
    ("test", "test.md"),
    ("testing", "test.md"),
    ("performance", "performance.md"),
    ("optimization", "performance.md"),
    ("security", "security.md") ]

/-- One entry of the catalog listing built by `get_pr_templates`. -/
structure TemplateEntry where
  filename : String
  type : String
  content : String
deriving DecidableEq, Repr

/-- The list comprehension of `get_pr_templates` (server.py lines 160-167):
reads run left to right and the first raised read error aborts the whole
comprehension. A filesystem read is `fs name`, with `Except.error` standing
for a raised exception. -/
def readTemplates (fs : String → Except String String) :
    List (String × String) → Except String (List TemplateEntry)
  | [] => Except.ok []
  | (filename, template_type) :: rest =>
    match fs filename with
    | Except.error e => Except.error e
    | Except.ok content =>
      match readTemplates fs rest with
      | Except.error e => Except.error e
      | Except.ok others =>
        Except.ok (TemplateEntry.mk filename template_type content :: others)

/-- Embedding of `get_pr_templates` (server.py lines 158-169). There is no
exception handler in the source: a failed read propagates. -/
def get_pr_templates (fs : String → Except String String) :
    Except String (List TemplateEntry) :=
  readTemplates fs DEFAULT_TEMPLATES

/-- The suggestion object built by `suggest_template`. -/
structure Suggestion where
  recommended_template : TemplateEntry
  reasoning : String
  template_content : String
  usage_hint : String
deriving DecidableEq, Repr

/-- Embedding of `suggest_template` (server.py lines 173-195): fetch the
catalog (propagating its exceptions), resolve the case-folded change type
through `TYPE_MAPPING` with default `feature.md`, pick the first catalog entry
with that filename (defaulting to the first entry; `templates[0]` on an empty
list would raise an IndexError). -/
def suggest_template (fs : String → Except String String)
    (changes_summary : String) (change_type : String) :
    Except String Suggestion :=
  match get_pr_templates fs with
  | Except.error e => Except.error e
  | Except.ok templates =>
    let template_file := (TYPE_MAPPING.lookup change_type.toLower).getD ("feature.md")
    match templates with
    | [] => Except.error ("IndexError: list index out of range")
    | t0 :: _ =>
    let selected_template := (templates.find? (fun t => t.filename == template_file)).getD t0
    Except.ok
      { recommended_template := selected_template,
        reasoning := "Based on your analysis: \x27" ++ changes_summary
          ++ "\x27, this appears to be a " ++ change_type ++ " change.",
        template_content := selected_template.content,
        usage_hint := "Claude can help you fill out this template based on the specific changes in your PR." }

/-- A successful environment fixture: primary call succeeded, the diff has
three lines `a`, `b`, `c`, and the commit-log invocation failed (as the
misspelled `--online` flag makes it do in practice), leaving empty stdout. -/
def envA : GitEnv :=
  { filesRun := RunResult.mk 0 ("M\tserver.py\n") (""),
    statRun := RunResult.mk 0 (" 1 file changed\n") (""),
    diffRun := RunResult.mk 0 ("a\nb\nc") (""),
    commitRun := RunResult.mk 129 ("") ("error: unknown option"),
    debugInfo := [] }

/-- An environment whose primary `git diff --name-status` call failed. -/
def envFailW : GitEnv :=
  { filesRun := RunResult.mk 128 ("") ("fatal: ambiguous argument"),
    statRun := RunResult.mk 0 ("") (""),
    diffRun := RunResult.mk 0 ("") (""),
    commitRun := RunResult.mk 0 ("") (""),
    debugInfo := [] }

/-- An environment where the primary call succeeded but every secondary git
invocation failed with empty stdout. -/
def envDegradeW : GitEnv :=
  { filesRun := RunResult.mk 0 ("M\tfile\n") (""),
    statRun := RunResult.mk 1 ("") ("stat failed"),
    diffRun := RunResult.mk 1 ("") ("diff failed"),
    commitRun := RunResult.mk 129 ("") ("log failed"),
    debugInfo := [] }

/-- A filesystem on which every template read succeeds. -/
def fsGood : String → Except String String :=
  fun f => Except.ok ("content of " ++ f)

/-- A filesystem on which reading `feature.md` raises and all other reads
succeed. -/
def fsBad : String → Except String String :=
  fun f =>
    if f == "feature.md" then Except.error ("FileNotFoundError: feature.md")
    else Except.ok ("content of " ++ f)

/-- The catalog listing produced when every read succeeds and file `f` has
content `g f`: one entry per declared template, in declaration order. -/
def catalogOf (g : String → String) : List TemplateEntry :=
  DEFAULT_TEMPLATES.map (fun p => TemplateEntry.mk p.1 p.2 (g p.1))

/-- The label paired with filename `tf` in an association list (first match). -/
def labelOf (l : List (String × String)) (tf : String) : String :=
  ((l.find? (fun p => p.1 == tf)).map Prod.snd).getD ("")

/-- Splitting never produces the empty list of parts. -/
theorem splitNl_ne_nil (s : List Char) : splitNl s ≠ [] := by
  induction s with
  | nil => simp [splitNl]
  | cons c cs ih =>
    simp only [splitNl]
    split
    · simp
    · cases h : splitNl cs with
      | nil => simp
      | cons l ls => simp

/-- No part produced by splitting contains a newline. -/
theorem mem_splitNl_not_newline {s l : List Char} (hl : l ∈ splitNl s) :
    '\n' ∉ l := by
  induction s generalizing l with
  | nil =>
    simp [splitNl] at hl
    subst hl
    simp
  | cons c cs ih =>
    simp only [splitNl] at hl
    by_cases hc : c = '\n'
    · rw [if_pos hc] at hl
      rcases List.mem_cons.mp hl with h | h
      · subst h; simp
      · exact ih h
    · rw [if_neg hc] at hl
      cases hsp : splitNl cs with
      | nil => exact absurd hsp (splitNl_ne_nil cs)
      | cons l0 ls =>
        rw [hsp] at hl
        rcases List.mem_cons.mp hl with h | h
        · subst h
          intro hmem
          rcases List.mem_cons.mp hmem with h1 | h1
          · exact hc h1.symm
          · exact ih (by rw [hsp]; exact List.mem_cons_self l0 ls) h1
        · exact ih (by rw [hsp]; exact List.mem_cons_of_mem l0 h)

/-- Splitting a newline-free prefix followed by a newline peels off the
prefix as one part. -/
theorem splitNl_append_cons (y rest : List Char) (hy : '\n' ∉ y) :
    splitNl (y ++ '\n' :: rest) = y :: splitNl rest := by
  induction y with
  | nil => simp [splitNl]
  | cons c cs ih =>
    have hc : c ≠ '\n' := fun h => hy (h ▸ List.mem_cons_self c cs)
    have hcs : '\n' ∉ cs := fun h => hy (List.mem_cons_of_mem c h)
    rw [List.cons_append, splitNl.eq_def]
    simp only [if_neg hc]
    rw [ih hcs]

/-- A newline-free string splits into itself as the only part. -/
theorem splitNl_eq_self (t : List Char) (ht : '\n' ∉ t) : splitNl t = [t] := by
  induction t with
  | nil => rfl
  | cons c cs ih =>
    have hc : c ≠ '\n' := fun h => ht (h ▸ List.mem_cons_self c cs)
    have hcs := ih (fun h => ht (List.mem_cons_of_mem c h))
    simp only [splitNl, if_neg hc, hcs]

/-- Rebuilding a string from its parts and then splitting again undoes the
join, when the parts list is nonempty and the parts are newline-free. -/
theorem splitNl_join_append (ys : List String) (rest : List Char)
    (hne : ys ≠ []) (hys : ∀ y ∈ ys, '\n' ∉ y.data) :
    splitNl ((pyJoinNl ys).data ++ '\n' :: rest)
      = ys.map String.data ++ splitNl rest := by
  induction ys with
  | nil => exact absurd rfl hne
  | cons x ys2 ih =>
    cases ys2 with
    | nil =>
      simp only [pyJoinNl, List.map, List.nil_append]
      exact splitNl_append_cons x.data rest (hys x (List.mem_cons_self x []))
    | cons y ys3 =>
      have hx : '\n' ∉ x.data := hys x (List.mem_cons_self x (y :: ys3))
      have hdata : (pyJoinNl (x :: y :: ys3)).data
          = x.data ++ '\n' :: (pyJoinNl (y :: ys3)).data := by
        show (x ++ "\n" ++ pyJoinNl (y :: ys3)).data = _
        simp [String.data_append]
      rw [hdata, List.append_assoc, List.cons_append,
        splitNl_append_cons x.data _ hx,
        ih (by simp) (fun z hz => hys z (List.mem_cons_of_mem x hz))]
      rfl

/-- Strings are equal when their character data are. -/
theorem string_mk_data (s : String) : String.mk s.data = s := rfl

/-- No line produced by `pySplit` contains a newline character. -/
theorem mem_pySplit_not_newline {s y : String} (h : y ∈ pySplit s) :
    '\n' ∉ y.data := by
  rcases List.mem_map.mp h with ⟨l, hl, rfl⟩
  exact mem_splitNl_not_newline hl

/-- Python split never yields an empty list of parts. -/
theorem pySplit_ne_nil (s : String) : pySplit s ≠ [] := by
  intro h
  exact splitNl_ne_nil s.data (List.map_eq_nil_iff.mp h)

/-- Peeling one newline off the front of a split. -/
theorem splitNl_cons_newline (t : List Char) :
    splitNl ('\n' :: t) = [] :: splitNl t := by
  rw [splitNl.eq_def]
  simp

/-- Above fifteen every digit renders as the star placeholder. -/
theorem digitChar_ge_sixteen (n : Nat) (h : 16 ≤ n) : Nat.digitChar n = '*' := by
  have e0 : ¬ n = 0 := by omega
  have e1 : ¬ n = 1 := by omega
  have e2 : ¬ n = 2 := by omega
  have e3 : ¬ n = 3 := by omega
  have e4 : ¬ n = 4 := by omega
  have e5 : ¬ n = 5 := by omega
  have e6 : ¬ n = 6 := by omega
  have e7 : ¬ n = 7 := by omega
  have e8 : ¬ n = 8 := by omega
  have e9 : ¬ n = 9 := by omega
  have ea : ¬ n = 10 := by omega
  have eb : ¬ n = 11 := by omega
  have ec : ¬ n = 12 := by omega
  have ed : ¬ n = 13 := by omega
  have ee : ¬ n = 14 := by omega
  have ef : ¬ n = 15 := by omega
  simp only [Nat.digitChar]
  simp [e0, e1, e2, e3, e4, e5, e6, e7, e8, e9, ea, eb, ec, ed, ee, ef]

/-- Decimal digit characters are never a newline. -/
theorem digitChar_ne_newline (n : Nat) : Nat.digitChar n ≠ '\n' := by
  rcases Nat.lt_or_ge n 16 with h | h
  · interval_cases n <;> decide
  · rw [digitChar_ge_sixteen n h]
    decide

/-- The digit accumulator of `Nat.toDigitsCore` never introduces a newline. -/
theorem toDigitsCore_not_newline (b fuel n : Nat) (ds : List Char)
    (hds : '\n' ∉ ds) : '\n' ∉ Nat.toDigitsCore b fuel n ds := by
  induction fuel generalizing n ds with
  | zero => simpa [Nat.toDigitsCore] using hds
  | succ fuel ih =>
    simp only [Nat.toDigitsCore]
    split
    · intro h
      rcases List.mem_cons.mp h with h1 | h1
      · exact digitChar_ne_newline _ h1.symm
      · exact hds h1
    · exact ih _ _ (fun h => by
        rcases List.mem_cons.mp h with h1 | h1
        · exact digitChar_ne_newline _ h1.symm
        · exact hds h1)

/-- The decimal representation of a natural number contains no newline. -/
theorem natToString_not_newline (n : Nat) : '\n' ∉ (toString n).data := by
  show '\n' ∉ (Nat.repr n).data
  unfold Nat.repr
  show '\n' ∉ Nat.toDigits 10 n
  unfold Nat.toDigits
  exact toDigitsCore_not_newline 10 (n + 1) n [] (by simp)

/-- The decimal representation of an integer contains no newline. -/
theorem intToString_not_newline (i : Int) : '\n' ∉ (toString i).data := by
  cases i with
  | ofNat m => exact natToString_not_newline m
  | negSucc m =>
    show '\n' ∉ ("-" ++ toString (m + 1)).data
    rw [String.data_append]
    intro h
    rcases List.mem_append.mp h with h1 | h1
    · exact absurd h1 (by decide)
    · exact natToString_not_newline (m + 1) h1

/-- Splitting the truncated diff string: the kept lines come back unchanged,
followed by one blank part and the two trailer parts. -/
theorem pySplit_join_trailers (ys : List String) (A B : String)
    (hne : ys ≠ []) (hys : ∀ y ∈ ys, '\n' ∉ y.data)
    (hA : '\n' ∉ A.data) (hB : '\n' ∉ B.data) :
    pySplit (pyJoinNl ys ++ ("\n\n" ++ A) ++ ("\n" ++ B)) = ys ++ ["", A, B] := by
  have h2 : ("\n\n").data = ['\n', '\n'] := rfl
  have h3 : ("\n").data = ['\n'] := rfl
  have hdata : (pyJoinNl ys ++ ("\n\n" ++ A) ++ ("\n" ++ B)).data
      = (pyJoinNl ys).data ++ '\n' :: ('\n' :: (A.data ++ '\n' :: B.data)) := by
    simp [String.data_append, h2, h3]
  unfold pySplit
  rw [hdata, splitNl_join_append ys _ hne hys, splitNl_cons_newline,
    splitNl_append_cons A.data _ hA, splitNl_eq_self B.data hB]
  have hl : ∀ zs : List String, (zs.map String.data).map (fun l => String.mk l) = zs := by
    intro zs
    induction zs with
    | nil => rfl
    | cons z zs ih => simp [ih, string_mk_data]
  rw [List.map_append, hl]
  rfl

/-- Splitting a string that is only the blank separator and the two trailers:
two empty parts followed by the two trailer parts. -/
theorem pySplit_empty_join_trailers (A B : String)
    (hA : '\n' ∉ A.data) (hB : '\n' ∉ B.data) :
    pySplit (("\n\n" ++ A) ++ ("\n" ++ B)) = ["", "", A, B] := by
  have h2 : ("\n\n").data = ['\n', '\n'] := rfl
  have h3 : ("\n").data = ['\n'] := rfl
  have hdata : (("\n\n" ++ A) ++ ("\n" ++ B)).data
      = '\n' :: '\n' :: (A.data ++ '\n' :: B.data) := by
    simp [String.data_append, h2, h3]
  unfold pySplit
  rw [hdata, splitNl_cons_newline, splitNl_cons_newline,
    splitNl_append_cons _ _ hA, splitNl_eq_self _ hB]
  rfl

/-- If reading any declared file raises, the whole comprehension raises. -/
theorem readTemplates_error (fs : String → Except String String)
    (l : List (String × String))
    (h : ∃ p ∈ l, ∃ e, fs p.1 = Except.error e) :
    ∃ e2, readTemplates fs l = Except.error e2 := by
  induction l with
  | nil =>
    rcases h with ⟨p, hp, _⟩
    exact absurd hp (List.not_mem_nil p)
  | cons q rest ih =>
    obtain ⟨qf, qt⟩ := q
    rcases h with ⟨p, hp, e, he⟩
    rcases List.mem_cons.mp hp with rfl | hmem
    · simp only at he
      cases hq : fs qf with
      | error e0 => exact ⟨e0, by simp [readTemplates, hq]⟩
      | ok c =>
        rw [he] at hq
        exact absurd hq (by simp)
    · cases hq : fs qf with
      | error e0 => exact ⟨e0, by simp [readTemplates, hq]⟩
      | ok c =>
        rcases ih ⟨p, hmem, e, he⟩ with ⟨e2, h2⟩
        exact ⟨e2, by simp [readTemplates, hq, h2]⟩

/-- When every declared read succeeds the comprehension returns one entry per
declared template, in order, with the read content. -/
theorem readTemplates_ok (fs : String → Except String String) (g : String → String)
    (l : List (String × String))
    (hfs : ∀ p ∈ l, fs p.1 = Except.ok (g p.1)) :
    readTemplates fs l
      = Except.ok (l.map (fun p => TemplateEntry.mk p.1 p.2 (g p.1))) := by
  induction l with
  | nil => rfl
  | cons q rest ih =>
    obtain ⟨qf, qt⟩ := q
    have hq := hfs (qf, qt) (List.mem_cons_self _ _)
    simp only at hq
    simp [readTemplates, hq, ih (fun p hp => hfs p (List.mem_cons_of_mem _ hp))]

/-- The full catalog listing on an all-reads-succeed filesystem. -/
theorem get_pr_templates_okAll (fs : String → Except String String)
    (g : String → String)
    (hfs : ∀ p ∈ DEFAULT_TEMPLATES, fs p.1 = Except.ok (g p.1)) :
    get_pr_templates fs = Except.ok (catalogOf g) :=
  readTemplates_ok fs g DEFAULT_TEMPLATES hfs

/-- A successful association-list lookup returns one of the stored values. -/
theorem lookup_mem_values (l : List (String × String)) (k v : String)
    (h : l.lookup k = some v) : v ∈ l.map Prod.snd := by
  induction l with
  | nil => simp [List.lookup] at h
  | cons q rest ih =>
    obtain ⟨qk, qv⟩ := q
    cases hbeq : (k == qk) with
    | true =>
      simp [List.lookup, hbeq] at h
      simp [h]
    | false =>
      simp [List.lookup, hbeq] at h
      exact List.mem_cons_of_mem _ (ih h)

/-- Searching the catalog built from an association list for a declared
filename finds the entry carrying that filename, its declared label and its
read content. -/
theorem find_map_filename (g : String → String) (l : List (String × String))
    (tf : String) (htf : tf ∈ l.map Prod.fst) :
    (l.map (fun p => TemplateEntry.mk p.1 p.2 (g p.1))).find?
        (fun t => t.filename == tf)
      = some (TemplateEntry.mk tf (labelOf l tf) (g tf)) := by
  induction l with
  | nil => simp at htf
  | cons q rest ih =>
    obtain ⟨qf, qt⟩ := q
    by_cases hq : qf = tf
    · subst hq
      simp [List.find?, labelOf]
    · have htf2 : tf ∈ rest.map Prod.fst := by
        simp only [List.map_cons, List.mem_cons] at htf
        rcases htf with h | h
        · exact absurd h.symm hq
        · exact h
      have hbeq : (qf == tf) = false := beq_eq_false_iff_ne.mpr hq
      have hlab : labelOf ((qf, qt) :: rest) tf = labelOf rest tf := by
        simp [labelOf, List.find?, hbeq]
      rw [hlab]
      have hfind := ih htf2
      simp [List.find?, hbeq, hfind]

/-- Every value of the synonym table is a filename of the catalog. -/
theorem mapping_values_in_catalog :
    ∀ v ∈ TYPE_MAPPING.map Prod.snd, v ∈ DEFAULT_TEMPLATES.map Prod.fst := by
  decide

/-- The resolved template file, with its fallback, is always a declared
catalog filename. -/
theorem resolved_in_catalog (x : String) :
    (TYPE_MAPPING.lookup x).getD ("feature.md") ∈ DEFAULT_TEMPLATES.map Prod.fst := by
  cases h : TYPE_MAPPING.lookup x with
  | none =>
    exact (by decide : ("feature.md") ∈ DEFAULT_TEMPLATES.map Prod.fst)
  | some v =>
    exact mapping_values_in_catalog v (lookup_mem_values _ _ _ h)

/-- Closed form of `suggest_template` on an all-reads-succeed filesystem: the
recommended entry is the catalog entry for the resolved filename. -/
theorem suggest_template_ok (fs : String → Except String String)
    (g : String → String)
    (hfs : ∀ p ∈ DEFAULT_TEMPLATES, fs p.1 = Except.ok (g p.1))
    (cs ct : String) :
    suggest_template fs cs ct = Except.ok
      { recommended_template := TemplateEntry.mk
          ((TYPE_MAPPING.lookup ct.toLower).getD ("feature.md"))
          (labelOf DEFAULT_TEMPLATES ((TYPE_MAPPING.lookup ct.toLower).getD ("feature.md")))
          (g ((TYPE_MAPPING.lookup ct.toLower).getD ("feature.md"))),
        reasoning := "Based on your analysis: \x27" ++ cs
          ++ "\x27, this appears to be a " ++ ct ++ " change.",
        template_content := g ((TYPE_MAPPING.lookup ct.toLower).getD ("feature.md")),
        usage_hint := "Claude can help you fill out this template based on the specific changes in your PR." } := by
  have hcat := get_pr_templates_okAll fs g hfs
  have hfind : (catalogOf g).find?
      (fun t => t.filename == (TYPE_MAPPING.lookup ct.toLower).getD ("feature.md"))
      = some (TemplateEntry.mk ((TYPE_MAPPING.lookup ct.toLower).getD ("feature.md"))
          (labelOf DEFAULT_TEMPLATES ((TYPE_MAPPING.lookup ct.toLower).getD ("feature.md")))
          (g ((TYPE_MAPPING.lookup ct.toLower).getD ("feature.md")))) :=
    find_map_filename g DEFAULT_TEMPLATES _ (resolved_in_catalog ct.toLower)
  simp only [suggest_template, hcat]
  split
  · next heq =>
    exact absurd heq (by simp [catalogOf, DEFAULT_TEMPLATES])
  · next t0 rest heq =>
    rw [hfind]
    rfl

/-- C1: for every call with include_diff=true, max_diff_lines at least 0 and a
successful primary git invocation, the reported truncated flag is set exactly
when the diff's line count (Python split semantics) exceeds max_diff_lines,
and the reported total-diff-line count equals that line count. -/
theorem analyze_truncation_counts (env : GitEnv) (base_branch : String)
    (max_diff_lines : Int) (hok : env.filesRun.exitCode = 0)
    (_hmax : 0 ≤ max_diff_lines) :
    ((analyze_file_changes base_branch true max_diff_lines env).getField ("truncated")
        = some (JsonVal.bool true)
      ↔ ((pySplit env.diffRun.stdout).length : Int) > max_diff_lines) ∧
    (analyze_file_changes base_branch true max_diff_lines env).getField ("total_diff_lens")
      = some (JsonVal.int ((pySplit env.diffRun.stdout).length : Int)) := by
  simp [analyze_file_changes, hok, JsonVal.getField, List.find?]

/-- Witness for C1 at a concrete environment: three diff lines against a
bound of two. -/
theorem analyze_truncation_counts_witness :
    ((analyze_file_changes ("main") true 2 envA).getField ("truncated")
        = some (JsonVal.bool true)
      ↔ ((pySplit envA.diffRun.stdout).length : Int) > 2) ∧
    (analyze_file_changes ("main") true 2 envA).getField ("total_diff_lens")
      = some (JsonVal.int ((pySplit envA.diffRun.stdout).length : Int)) :=
  analyze_truncation_counts envA ("main") 2 rfl (by decide)

/-- C2 (recording the code bug): at a successful call the emitted JSON keys
are exactly these, with `files_cahnged` and `total_diff_lens` misspelled
where the specification says `files_changed` and `total_diff_lines`. -/
theorem analyze_field_names :
    (analyze_file_changes ("main") false 500 envA).keys
      = some ["base_branch", "files_cahnged", "statistics", "commits", "diff",
              "truncated", "total_diff_lens", "_debug"] := by rfl

/-- Counterexample to C3 as stated: with max_diff_lines = 1 and a three-line
diff, the returned diff text has four parts (one content line, one blank
separator line, two trailer lines), not one-plus-two. -/
theorem analyze_truncated_shape_cex :
    (analyze_file_changes ("main") true 1 envA).getField ("diff")
      = some (JsonVal.str ("a\n\n... Output truncated. Showing 1 of 3 lines ...\n... Use max_diff_lines parameter to see more ...")) ∧
    (pySplit ("a\n\n... Output truncated. Showing 1 of 3 lines ...\n... Use max_diff_lines parameter to see more ...")).length ≠ 1 + 2 := by
  refine ⟨rfl, by decide⟩

/-- C3 (amended): for every truncated call with max_diff_lines at least 1,
the returned diff text splits into exactly max_diff_lines content lines from
the original diff, then one blank line, then the two trailer lines. -/
theorem analyze_truncated_shape (env : GitEnv) (base_branch : String)
    (max_diff_lines : Int) (hok : env.filesRun.exitCode = 0)
    (hmax : 1 ≤ max_diff_lines)
    (hgt : ((pySplit env.diffRun.stdout).length : Int) > max_diff_lines) :
    ∃ s : String,
      (analyze_file_changes base_branch true max_diff_lines env).getField ("diff")
        = some (JsonVal.str s) ∧
      pySplit s
        = (pySplit env.diffRun.stdout).take max_diff_lines.toNat
          ++ [ "",
               "... Output truncated. Showing " ++ toString max_diff_lines
                 ++ " of " ++ toString (pySplit env.diffRun.stdout).length ++ " lines ...",
               "... Use max_diff_lines parameter to see more ..." ] ∧
      ((pySplit env.diffRun.stdout).take max_diff_lines.toNat).length
        = max_diff_lines.toNat := by
  have hsl : pySliceTo (pySplit env.diffRun.stdout) max_diff_lines
      = (pySplit env.diffRun.stdout).take max_diff_lines.toNat := by
    unfold pySliceTo
    rw [if_pos (by omega : (0 : Int) ≤ max_diff_lines)]
  have hfield : (analyze_file_changes base_branch true max_diff_lines env).getField ("diff")
      = some (JsonVal.str (pyJoinNl ((pySplit env.diffRun.stdout).take max_diff_lines.toNat)
          ++ ("\n\n... Output truncated. Showing " ++ toString max_diff_lines
              ++ " of " ++ toString (pySplit env.diffRun.stdout).length ++ " lines ...")
          ++ "\n... Use max_diff_lines parameter to see more ...")) := by
    simp [analyze_file_changes, hok, JsonVal.getField, List.find?, hgt, hsl]
  have htake_len : ((pySplit env.diffRun.stdout).take max_diff_lines.toNat).length
      = max_diff_lines.toNat := by
    rw [List.length_take]
    omega
  have hrw : pyJoinNl ((pySplit env.diffRun.stdout).take max_diff_lines.toNat)
        ++ ("\n\n... Output truncated. Showing " ++ toString max_diff_lines
            ++ " of " ++ toString (pySplit env.diffRun.stdout).length ++ " lines ...")
        ++ "\n... Use max_diff_lines parameter to see more ..."
      = pyJoinNl ((pySplit env.diffRun.stdout).take max_diff_lines.toNat)
        ++ ("\n\n" ++ ("... Output truncated. Showing " ++ toString max_diff_lines
            ++ " of " ++ toString (pySplit env.diffRun.stdout).length ++ " lines ..."))
        ++ ("\n" ++ ("... Use max_diff_lines parameter to see more ...")) := by
    apply String.ext
    have e1 : ("\n\n... Output truncated. Showing ").data
        = '\n' :: '\n' :: ("... Output truncated. Showing ").data := rfl
    have e4 : ("\n... Use max_diff_lines parameter to see more ...").data
        = '\n' :: ("... Use max_diff_lines parameter to see more ...").data := rfl
    simp [String.data_append, e1, e4]
  have hsplit : pySplit (pyJoinNl ((pySplit env.diffRun.stdout).take max_diff_lines.toNat)
        ++ ("\n\n... Output truncated. Showing " ++ toString max_diff_lines
            ++ " of " ++ toString (pySplit env.diffRun.stdout).length ++ " lines ...")
        ++ "\n... Use max_diff_lines parameter to see more ...")
      = (pySplit env.diffRun.stdout).take max_diff_lines.toNat
        ++ [ "",
             "... Output truncated. Showing " ++ toString max_diff_lines
               ++ " of " ++ toString (pySplit env.diffRun.stdout).length ++ " lines ...",
             "... Use max_diff_lines parameter to see more ..." ] := by
    rw [hrw]
    apply pySplit_join_trailers
    · have hpos : 0 < ((pySplit env.diffRun.stdout).take max_diff_lines.toNat).length := by
        rw [htake_len]
        omega
      exact List.ne_nil_of_length_pos hpos
    · intro y hy
      exact mem_pySplit_not_newline (List.take_subset _ _ hy)
    · intro hmem
      simp only [String.data_append, List.mem_append] at hmem
      rcases hmem with (((h1 | h2) | h3) | h4) | h5
      · exact absurd h1 (by decide)
      · exact intToString_not_newline max_diff_lines h2
      · exact absurd h3 (by decide)
      · exact natToString_not_newline (pySplit env.diffRun.stdout).length h4
      · exact absurd h5 (by decide)
    · exact fun hmem => absurd hmem (by decide)
  exact ⟨_, hfield, hsplit, htake_len⟩

/-- Witness for the amended C3 at a concrete environment. -/
theorem analyze_truncated_shape_witness :
    ∃ s : String,
      (analyze_file_changes ("main") true 1 envA).getField ("diff")
        = some (JsonVal.str s) ∧
      pySplit s
        = (pySplit envA.diffRun.stdout).take (1 : Int).toNat
          ++ [ "",
               "... Output truncated. Showing " ++ toString (1 : Int)
                 ++ " of " ++ toString (pySplit envA.diffRun.stdout).length ++ " lines ...",
               "... Use max_diff_lines parameter to see more ..." ] ∧
      ((pySplit envA.diffRun.stdout).take (1 : Int).toNat).length = (1 : Int).toNat :=
  analyze_truncated_shape envA ("main") 1 rfl (by decide) (by decide)

/-- Counterexample to C4 as stated: with max_diff_lines = -1 (non-positive)
and the three-line diff `a`, `b`, `c`, Python slicing keeps all but the last
line, so the content line `a` of the original diff still appears. -/
theorem analyze_nonpositive_max_cex :
    (analyze_file_changes ("main") true (-1) envA).getField ("diff")
      = some (JsonVal.str ("a\nb\n\n... Output truncated. Showing -1 of 3 lines ...\n... Use max_diff_lines parameter to see more ...")) ∧
    ("a") ∈ pySplit ("a\nb\n\n... Output truncated. Showing -1 of 3 lines ...\n... Use max_diff_lines parameter to see more ...") ∧
    ("a") ∈ pySplit (envA.diffRun.stdout) := by
  refine ⟨rfl, by decide, by decide⟩

/-- C4 (amended): with include_diff=true and max_diff_lines = 0, the returned
diff text carries no line of the original diff (two blank parts and the two
trailer lines only), the reported total is the true split line count, and
truncated is true (that count is always positive). -/
theorem analyze_zero_max (env : GitEnv) (base_branch : String)
    (hok : env.filesRun.exitCode = 0) :
    ∃ s : String,
      (analyze_file_changes base_branch true 0 env).getField ("diff")
        = some (JsonVal.str s) ∧
      pySplit s
        = [ "", "",
            "... Output truncated. Showing 0 of "
              ++ toString (pySplit env.diffRun.stdout).length ++ " lines ...",
            "... Use max_diff_lines parameter to see more ..." ] ∧
      (analyze_file_changes base_branch true 0 env).getField ("total_diff_lens")
        = some (JsonVal.int ((pySplit env.diffRun.stdout).length : Int)) ∧
      (analyze_file_changes base_branch true 0 env).getField ("truncated")
        = some (JsonVal.bool true) := by
  have hpos : 0 < (pySplit env.diffRun.stdout).length :=
    List.length_pos.mpr (pySplit_ne_nil env.diffRun.stdout)
  have hgt : ((pySplit env.diffRun.stdout).length : Int) > 0 := by exact_mod_cast hpos
  have hsl : pySliceTo (pySplit env.diffRun.stdout) 0 = [] := by
    unfold pySliceTo
    simp
  have hfield : (analyze_file_changes base_branch true 0 env).getField ("diff")
      = some (JsonVal.str (pyJoinNl []
          ++ ("\n\n... Output truncated. Showing " ++ toString (0 : Int)
              ++ " of " ++ toString (pySplit env.diffRun.stdout).length ++ " lines ...")
          ++ "\n... Use max_diff_lines parameter to see more ...")) := by
    simp [analyze_file_changes, hok, JsonVal.getField, List.find?, hgt, hsl]
  have hA0 : '\n' ∉ ("... Output truncated. Showing 0 of "
      ++ toString (pySplit env.diffRun.stdout).length ++ " lines ...").data := by
    intro hmem
    simp only [String.data_append, List.mem_append] at hmem
    rcases hmem with (h1 | h2) | h3
    · exact absurd h1 (by decide)
    · exact natToString_not_newline (pySplit env.diffRun.stdout).length h2
    · exact absurd h3 (by decide)
  have hrw : pyJoinNl []
        ++ ("\n\n... Output truncated. Showing " ++ toString (0 : Int)
            ++ " of " ++ toString (pySplit env.diffRun.stdout).length ++ " lines ...")
        ++ "\n... Use max_diff_lines parameter to see more ..."
      = ("\n\n" ++ ("... Output truncated. Showing 0 of "
            ++ toString (pySplit env.diffRun.stdout).length ++ " lines ..."))
        ++ ("\n" ++ ("... Use max_diff_lines parameter to see more ...")) := by
    apply String.ext
    have e0 : (toString (0 : Int)).data = ['0'] := rfl
    have e1 : ("\n\n... Output truncated. Showing ").data
        = '\n' :: '\n' :: ("... Output truncated. Showing ").data := rfl
    have e4 : ("\n... Use max_diff_lines parameter to see more ...").data
        = '\n' :: ("... Use max_diff_lines parameter to see more ...").data := rfl
    simp [String.data_append, pyJoinNl, e0, e1, e4]
  have hsplit : pySplit (pyJoinNl []
        ++ ("\n\n... Output truncated. Showing " ++ toString (0 : Int)
            ++ " of " ++ toString (pySplit env.diffRun.stdout).length ++ " lines ...")
        ++ "\n... Use max_diff_lines parameter to see more ...")
      = [ "", "",
          "... Output truncated. Showing 0 of "
            ++ toString (pySplit env.diffRun.stdout).length ++ " lines ...",
          "... Use max_diff_lines parameter to see more ..." ] := by
    rw [hrw]
    exact pySplit_empty_join_trailers _ _ hA0 (fun hmem => absurd hmem (by decide))
  have htot : (analyze_file_changes base_branch true 0 env).getField ("total_diff_lens")
      = some (JsonVal.int ((pySplit env.diffRun.stdout).length : Int)) := by
    simp [analyze_file_changes, hok, JsonVal.getField, List.find?]
  have htru : (analyze_file_changes base_branch true 0 env).getField ("truncated")
      = some (JsonVal.bool true) := by
    simp [analyze_file_changes, hok, JsonVal.getField, List.find?, hgt]
  exact ⟨_, hfield, hsplit, htot, htru⟩

/-- Witness for the amended C4 at a concrete environment. -/
theorem analyze_zero_max_witness :
    ∃ s : String,
      (analyze_file_changes ("main") true 0 envA).getField ("diff")
        = some (JsonVal.str s) ∧
      pySplit s
        = [ "", "",
            "... Output truncated. Showing 0 of "
              ++ toString (pySplit envA.diffRun.stdout).length ++ " lines ...",
            "... Use max_diff_lines parameter to see more ..." ] ∧
      (analyze_file_changes ("main") true 0 envA).getField ("total_diff_lens")
        = some (JsonVal.int ((pySplit envA.diffRun.stdout).length : Int)) ∧
      (analyze_file_changes ("main") true 0 envA).getField ("truncated")
        = some (JsonVal.bool true) :=
  analyze_zero_max envA ("main") rfl

/-- Counterexample to C5 as stated: with include_diff=false and the negative
max_diff_lines = -1 the reported total (0) exceeds max_diff_lines, yet
truncated is false. -/
theorem analyze_invariant_cex :
    (analyze_file_changes ("main") false (-1) envA).getField ("truncated")
      = some (JsonVal.bool false) ∧
    (analyze_file_changes ("main") false (-1) envA).getField ("total_diff_lens")
      = some (JsonVal.int 0) ∧
    ((0 : Int) > (-1 : Int)) := by
  refine ⟨rfl, rfl, by decide⟩

/-- C5 (amended): for every successful call with max_diff_lines at least 0
(any include_diff), the reported truncated flag is set exactly when the
reported total-diff-line count exceeds max_diff_lines. -/
theorem analyze_truncated_invariant (env : GitEnv) (base_branch : String)
    (include_diff : Bool) (max_diff_lines : Int)
    (hok : env.filesRun.exitCode = 0) (hmax : 0 ≤ max_diff_lines) :
    (analyze_file_changes base_branch include_diff max_diff_lines env).getField ("total_diff_lens")
      = some (JsonVal.int
          (if include_diff then ((pySplit env.diffRun.stdout).length : Int) else 0)) ∧
    ((analyze_file_changes base_branch include_diff max_diff_lines env).getField ("truncated")
        = some (JsonVal.bool true)
      ↔ (if include_diff then ((pySplit env.diffRun.stdout).length : Int) else 0)
          > max_diff_lines) := by
  cases include_diff with
  | false =>
    simp [analyze_file_changes, hok, JsonVal.getField, List.find?]
    omega
  | true =>
    simp [analyze_file_changes, hok, JsonVal.getField, List.find?]

/-- Witness for the amended C5 at a concrete environment. -/
theorem analyze_truncated_invariant_witness :
    (analyze_file_changes ("main") false 500 envA).getField ("total_diff_lens")
      = some (JsonVal.int
          (if false then ((pySplit envA.diffRun.stdout).length : Int) else 0)) ∧
    ((analyze_file_changes ("main") false 500 envA).getField ("truncated")
        = some (JsonVal.bool true)
      ↔ (if false then ((pySplit envA.diffRun.stdout).length : Int) else 0)
          > 500) :=
  analyze_truncated_invariant envA ("main") false 500 rfl (by decide)

/-- C6: a non-zero exit of the primary name-status invocation aborts the call
with exactly the one-field Git-error object; when the primary invocation
succeeds, failures of the statistics, full-diff or commit-log invocations
(empty stdout) do not abort, leaving empty text in the matching fields of the
full eight-field report. -/
theorem analyze_error_isolation (env : GitEnv) (base_branch : String)
    (include_diff : Bool) (max_diff_lines : Int) :
    (env.filesRun.exitCode ≠ 0 →
      analyze_file_changes base_branch include_diff max_diff_lines env
        = JsonVal.obj [("error", JsonVal.str ("Git error: " ++ env.filesRun.stderr))]) ∧
    (env.filesRun.exitCode = 0 → 1 ≤ max_diff_lines →
      env.statRun.stdout = "" → env.diffRun.stdout = "" → env.commitRun.stdout = "" →
      (analyze_file_changes base_branch true max_diff_lines env).getField ("statistics")
          = some (JsonVal.str ("")) ∧
      (analyze_file_changes base_branch true max_diff_lines env).getField ("commits")
          = some (JsonVal.str ("")) ∧
      (analyze_file_changes base_branch true max_diff_lines env).getField ("diff")
          = some (JsonVal.str ("")) ∧
      (analyze_file_changes base_branch true max_diff_lines env).keys
          = some ["base_branch", "files_cahnged", "statistics", "commits", "diff",
                  "truncated", "total_diff_lens", "_debug"]) := by
  constructor
  · intro hbad
    simp [analyze_file_changes, hbad]
  · intro hok hmax hstat hdiff hcommit
    have hone : (pySplit ("")).length = 1 := rfl
    have hnotgt : ¬ ((pySplit ("")).length : Int) > max_diff_lines := by
      rw [hone]
      omega
    simp [analyze_file_changes, hok, hstat, hdiff, hcommit, JsonVal.getField,
      JsonVal.keys, List.find?, hnotgt]

/-- Witness for C6: the primary failure aborts with the error object, and a
successful primary call with failed secondaries still reports all fields. -/
theorem analyze_error_isolation_witness :
    analyze_file_changes ("main") true 500 envFailW
      = JsonVal.obj [("error", JsonVal.str ("Git error: fatal: ambiguous argument"))] ∧
    (analyze_file_changes ("main") true 500 envDegradeW).getField ("statistics")
      = some (JsonVal.str ("")) ∧
    (analyze_file_changes ("main") true 500 envDegradeW).getField ("commits")
      = some (JsonVal.str ("")) ∧
    (analyze_file_changes ("main") true 500 envDegradeW).getField ("diff")
      = some (JsonVal.str ("")) :=
  ⟨(analyze_error_isolation envFailW ("main") true 500).1 (by decide),
   ((analyze_error_isolation envDegradeW ("main") true 500).2 rfl (by decide) rfl rfl rfl).1,
   ((analyze_error_isolation envDegradeW ("main") true 500).2 rfl (by decide) rfl rfl rfl).2.1,
   ((analyze_error_isolation envDegradeW ("main") true 500).2 rfl (by decide) rfl rfl rfl).2.2.1⟩

/-- Counterexample to C7 as stated: on a filesystem where reading feature.md
raises, both tools propagate the exception (modelled as `Except.error`)
instead of returning a payload with an error key. -/
theorem templates_read_failure_cex :
    get_pr_templates fsBad = Except.error ("FileNotFoundError: feature.md") ∧
    suggest_template fsBad ("renamed for clarity") ("bug")
      = Except.error ("FileNotFoundError: feature.md") := ⟨rfl, rfl⟩

/-- C7 (amended): if reading any declared template file fails, both
get_pr_templates and suggest_template abort with the propagated exception, so
no partial catalog is ever served; neither builds an error-key payload. -/
theorem templates_read_failure_aborts (fs : String → Except String String)
    (h : ∃ p ∈ DEFAULT_TEMPLATES, ∃ e, fs p.1 = Except.error e) :
    (∃ e2, get_pr_templates fs = Except.error e2) ∧
    (∀ changes_summary change_type : String,
      ∃ e2, suggest_template fs changes_summary change_type = Except.error e2) := by
  rcases readTemplates_error fs DEFAULT_TEMPLATES h with ⟨e2, h2⟩
  have hget : get_pr_templates fs = Except.error e2 := h2
  refine ⟨⟨e2, hget⟩, fun cs ct => ⟨e2, ?_⟩⟩
  simp [suggest_template, hget]

/-- Witness for the amended C7 at the concrete failing filesystem. -/
theorem templates_read_failure_aborts_witness :
    (∃ e2, get_pr_templates fsBad = Except.error e2) ∧
    (∃ e2, suggest_template fsBad ("a summary") ("bug") = Except.error e2) :=
  ⟨(templates_read_failure_aborts fsBad
      ⟨("feature.md", "Feature"), by decide, "FileNotFoundError: feature.md", rfl⟩).1,
   (templates_read_failure_aborts fsBad
      ⟨("feature.md", "Feature"), by decide, "FileNotFoundError: feature.md", rfl⟩).2
     ("a summary") ("bug")⟩

/-- C8: on an all-reads-succeed filesystem, suggest_template picks the
catalog entry whose filename is the synonym-table image of the case-folded
change type (feature.md when unrecognised), and any two change types with the
same case-folding select the same recommended template. -/
theorem suggest_template_case_insensitive (fs : String → Except String String)
    (g : String → String)
    (hfs : ∀ p ∈ DEFAULT_TEMPLATES, fs p.1 = Except.ok (g p.1))
    (changes_summary change_type : String) :
    ∃ s : Suggestion,
      suggest_template fs changes_summary change_type = Except.ok s ∧
      s.recommended_template.filename
        = (TYPE_MAPPING.lookup change_type.toLower).getD ("feature.md") ∧
      ∀ ct2 cs2 : String, ct2.toLower = change_type.toLower →
        ∃ s2 : Suggestion, suggest_template fs cs2 ct2 = Except.ok s2 ∧
          s2.recommended_template = s.recommended_template := by
  refine ⟨_, suggest_template_ok fs g hfs changes_summary change_type, rfl, ?_⟩
  intro ct2 cs2 hlow
  refine ⟨_, suggest_template_ok fs g hfs cs2 ct2, ?_⟩
  simp [hlow]

/-- Witness for C8 at a concrete filesystem and the change type `BUG`. -/
theorem suggest_template_case_insensitive_witness :
    ∃ s : Suggestion,
      suggest_template fsGood ("renamed variables for clarity") ("BUG") = Except.ok s ∧
      s.recommended_template.filename
        = (TYPE_MAPPING.lookup ("BUG").toLower).getD ("feature.md") ∧
      ∀ ct2 cs2 : String, ct2.toLower = ("BUG").toLower →
        ∃ s2 : Suggestion, suggest_template fsGood cs2 ct2 = Except.ok s2 ∧
          s2.recommended_template = s.recommended_template :=
  suggest_template_case_insensitive fsGood (fun f => "content of " ++ f)
    (by intro p hp; fin_cases hp <;> rfl)
    ("renamed variables for clarity") ("BUG")

/-- C9: when every read succeeds, get_pr_templates returns the seven entries
in declared order with their filename, label and read file content. -/
theorem get_pr_templates_order (fs : String → Except String String)
    (c1 c2 c3 c4 c5 c6 c7 : String)
    (h1 : fs ("bug.md") = Except.ok c1) (h2 : fs ("feature.md") = Except.ok c2)
    (h3 : fs ("docs.md") = Except.ok c3) (h4 : fs ("refactor.md") = Except.ok c4)
    (h5 : fs ("test.md") = Except.ok c5) (h6 : fs ("performance.md") = Except.ok c6)
    (h7 : fs ("security.md") = Except.ok c7) :
    get_pr_templates fs = Except.ok
      [ TemplateEntry.mk ("bug.md") ("Bug Fix") c1,
        TemplateEntry.mk ("feature.md") ("Feature") c2,
        TemplateEntry.mk ("docs.md") ("Documentation") c3,
        TemplateEntry.mk ("refactor.md") ("Refactor") c4,
        TemplateEntry.mk ("test.md") ("Test") c5,
        TemplateEntry.mk ("performance.md") ("Performance") c6,
        TemplateEntry.mk ("security.md") ("Security") c7 ] := by
  simp [get_pr_templates, DEFAULT_TEMPLATES, readTemplates, h1, h2, h3, h4, h5, h6, h7]

/-- Witness for C9 at a concrete filesystem. -/
theorem get_pr_templates_order_witness :
    get_pr_templates fsGood = Except.ok
      [ TemplateEntry.mk ("bug.md") ("Bug Fix") ("content of bug.md"),
        TemplateEntry.mk ("feature.md") ("Feature") ("content of feature.md"),
        TemplateEntry.mk ("docs.md") ("Documentation") ("content of docs.md"),
        TemplateEntry.mk ("refactor.md") ("Refactor") ("content of refactor.md"),
        TemplateEntry.mk ("test.md") ("Test") ("content of test.md"),
        TemplateEntry.mk ("performance.md") ("Performance") ("content of performance.md"),
        TemplateEntry.mk ("security.md") ("Security") ("content of security.md") ] :=
  get_pr_templates_order fsGood ("content of bug.md") ("content of feature.md")
    ("content of docs.md") ("content of refactor.md") ("content of test.md")
    ("content of performance.md") ("content of security.md")
    rfl rfl rfl rfl rfl rfl rfl

/-- C10: for every successful call with include_diff=false the diff field is
the fixed placeholder string, truncated is false and the reported
total-diff-line count is 0, whatever the actual diff size. -/
theorem analyze_no_diff_fields (env : GitEnv) (base_branch : String)
    (max_diff_lines : Int) (hok : env.filesRun.exitCode = 0) :
    (analyze_file_changes base_branch false max_diff_lines env).getField ("diff")
      = some (JsonVal.str ("Diff not included (set include_diff=true to see full diff)")) ∧
    (analyze_file_changes base_branch false max_diff_lines env).getField ("truncated")
      = some (JsonVal.bool false) ∧
    (analyze_file_changes base_branch false max_diff_lines env).getField ("total_diff_lens")
      = some (JsonVal.int 0) := by
  simp [analyze_file_changes, hok, JsonVal.getField, List.find?]

/-- Witness for C10 at a concrete environment with a three-line diff. -/
theorem analyze_no_diff_fields_witness :
    (analyze_file_changes ("main") false 500 envA).getField ("diff")
      = some (JsonVal.str ("Diff not included (set include_diff=true to see full diff)")) ∧
    (analyze_file_changes ("main") false 500 envA).getField ("truncated")
      = some (JsonVal.bool false) ∧
    (analyze_file_changes ("main") false 500 envA).getField ("total_diff_lens")
      = some (JsonVal.int 0) :=
  analyze_no_diff_fields envA ("main") 500 rfl
